import Mathlib

/-!
Verification of the Conversational Search Compiler of `immocloud/frontend-llm`.

The definitions below are a shallow embedding of `src/api/search.py` (the
served API module; `src/smart_search.py` contains an earlier copy of the same
functions without the `exclude_agencies` handling).  Python dictionaries
produced by `json.loads` are embedded as the inductive `JVal`; the persisted
per-session filter dictionary (created by `create_empty_memory` and updated
only by `validate_parsed_result`) is embedded as the typed structure
`FilterState`.  Python exceptions are embedded as `Except PyErr`; machine
integers are `Int` (Python integers are unbounded, so no wrap-around is
modelled).  The external HTTP call to the language model plus the
fence-stripping/JSON-repair/`json.loads` pipeline is abstracted into
`LLMOutcome` (its only observable effect on the rest of the program is
"failed / empty / parsed to this JSON value").
-/

/-- A Python value as produced by `json.loads`: null, bool, int, float
(embedded as an exact rational), string, list, or dict (assoc list; keys of a
parsed JSON object are unique). -/
inductive JVal where
  | null
  | bool (b : Bool)
  | int (n : ℤ)
  | float (q : ℚ)
  | str (s : String)
  | list (xs : List JVal)
  | obj (kvs : List (String × JVal))

/-- Python truthiness (`bool(v)`): None, False, 0, 0.0, "", [], {} are falsy. -/
def JVal.truthy : JVal → Bool
  | .null => false
  | .bool b => b
  | .int n => n != 0
  | .float q => q != 0
  | .str s => s != ""
  | .list xs => !xs.isEmpty
  | .obj kvs => !kvs.isEmpty

/-- `v is None` in Python (the parsed JSON null). -/
def JVal.isNull : JVal → Bool
  | .null => true
  | _ => false

/-- `v is True` in Python: only the literal boolean True. -/
def JVal.isTrueLit : JVal → Bool
  | .bool true => true
  | _ => false

/-- Canonical key of a hashable Python scalar under `==`: numbers collapse to
their rational value (Python's `bool` is a subclass of `int`: `True == 1`,
`False == 0`, and `int`/`float` compare numerically), strings and None are
their own classes; unhashable values (lists/dicts) have no key — they raise
`TypeError` before any comparison when put into a set. -/
def JVal.sKey : JVal → Option (ℚ ⊕ String ⊕ Unit)
  | .bool b => some (.inl (if b then 1 else 0))
  | .int n => some (.inl (n : ℚ))
  | .float q => some (.inl q)
  | .str s => some (.inr (.inl s))
  | .null => some (.inr (.inr ()))
  | _ => none

/-- Python `==` restricted to hashable scalars (the only values that can be
members of a Python `set` without raising `TypeError`). -/
def JVal.scalarEq (a b : JVal) : Bool :=
  match a.sKey, b.sKey with
  | some x, some y => decide (x = y)
  | _, _ => false

/-- Tri-state feature preference persisted in the filter dict: the strings
`"WANT"` / `"EXCLUDE"`, or Python `None` (embedded as `Option.none`). -/
inductive FeatVal where
  | want
  | exclude
deriving DecidableEq, Repr

/-- The five fixed feature keys of the filter dict (`features` sub-dict). -/
structure Features where
  animale : Option FeatVal
  fumatori : Option FeatVal
  parcare : Option FeatVal
  mobilat : Option FeatVal
  centrala : Option FeatVal
deriving DecidableEq, Repr

/-- The persisted per-session filter dictionary (the conversational memory).
`keywords` keeps Python's `list(set ∪ set)` as a duplicate-free list of
hashable scalars; the iteration order of a Python set is abstracted (all
claims about keywords are stated at the membership level).
`exclude_agencies` is absent from a fresh memory and only ever set to a bool;
absent and `False` are indistinguishable to every reader (`dict.get`
truthiness), so it is embedded as a `Bool` that starts `false`. -/
structure FilterState where
  location : Option String
  city : Option String
  transaction : Option String
  property_type : Option String
  rooms : Option ℤ
  price_min : Option ℤ
  price_max : Option ℤ
  keywords : List JVal
  features : Features
  exclude_agencies : Bool

/-- `create_empty_memory()` from `api/search.py`. -/
def create_empty_memory : FilterState :=
  { location := none, city := none, transaction := none,
    property_type := none, rooms := none, price_min := none,
    price_max := none, keywords := [],
    features := { animale := none, fumatori := none, parcare := none,
                  mobilat := none, centrala := none },
    exclude_agencies := false }

/-!  ## Field normalizer helpers (`strip_diacritics`, `normalize_city`,
`validate_transaction`, `validate_property_type`)  -/

/-- `unicodedata.normalize('NFD', ·)` followed by dropping combining marks,
restricted to the accented Latin characters occurring in this codebase's
data (the Romanian alphabet plus the Latin-1 letters appearing in the
double-encoded literals of the source file); all other characters are fixed
points. -/
def stripDiacriticChar (c : Char) : Char :=
  if c = 'ă' ∨ c = 'â' ∨ c = 'à' ∨ c = 'á' ∨ c = 'ã' ∨ c = 'ä' then 'a'
  else if c = 'î' ∨ c = 'ì' ∨ c = 'í' ∨ c = 'ï' then 'i'
  else if c = 'ș' ∨ c = 'ş' then 's'
  else if c = 'ț' ∨ c = 'ţ' then 't'
  else if c = 'è' ∨ c = 'é' ∨ c = 'ê' ∨ c = 'ë' then 'e'
  else if c = 'ò' ∨ c = 'ó' ∨ c = 'ô' ∨ c = 'ö' then 'o'
  else if c = 'ù' ∨ c = 'ú' ∨ c = 'û' ∨ c = 'ü' then 'u'
  else if c = 'Ă' ∨ c = 'Â' ∨ c = 'À' ∨ c = 'Á' ∨ c = 'Ã' ∨ c = 'Ä' then 'A'
  else if c = 'Î' ∨ c = 'Ì' ∨ c = 'Í' ∨ c = 'Ï' then 'I'
  else if c = 'Ș' ∨ c = 'Ş' then 'S'
  else if c = 'Ț' ∨ c = 'Ţ' then 'T'
  else if c = 'È' ∨ c = 'É' ∨ c = 'Ê' ∨ c = 'Ë' then 'E'
  else c

/-- `strip_diacritics(text)` for a string argument (`if not text: return text`
is the identity on the empty string, so the map covers both branches). -/
def strip_diacritics (s : String) : String :=
  (s.data.map stripDiacriticChar).asString

/-- Python `str.lower()`; agrees with Python on ASCII (full-Unicode case
folding of the rare accented uppercase letters is not modelled — no claim
depends on it). -/
def pyLower (s : String) : String :=
  (s.data.map Char.toLower).asString

/-- Python `str.strip()`: trim leading/trailing whitespace. -/
def pyStrip (s : String) : String :=
  (((s.data.dropWhile Char.isWhitespace).reverse.dropWhile
      Char.isWhitespace).reverse).asString

/-- Python `str.title()` (ASCII): first alphabetic character of each run is
upper-cased, subsequent ones lower-cased. -/
def pyTitleAux : Bool → List Char → List Char
  | _, [] => []
  | prevAlpha, c :: cs =>
    (if c.isAlpha then (if prevAlpha then c.toLower else c.toUpper) else c)
      :: pyTitleAux c.isAlpha cs

def pyTitle (s : String) : String :=
  (pyTitleAux false s.data).asString

/-- `KNOWN_CITIES` from `api/search.py`. -/
def KNOWN_CITIES : List (String × String) :=
  [("bucuresti", "Bucuresti"), ("bucharest", "Bucuresti"),
   ("timisoara", "Timis"), ("cluj", "Cluj"), ("cluj-napoca", "Cluj"),
   ("iasi", "Iasi"), ("constanta", "Constanta"), ("brasov", "Brasov"),
   ("sibiu", "Sibiu"), ("oradea", "Bihor"), ("craiova", "Dolj"),
   ("arad", "Arad"), ("ploiesti", "Prahova")]

/-- `normalize_city(city)` from `api/search.py` (string argument). -/
def normalize_city (city : String) : Option String :=
  if city = "" then none
  else
    let city_lower := strip_diacritics (pyStrip (pyLower city))
    match KNOWN_CITIES.lookup city_lower with
    | some v => some v
    | none =>
      match (KNOWN_CITIES.find? (fun kv => strip_diacritics kv.1 = city_lower)) with
      | some kv => some kv.2
      | none => some (pyTitle (pyStrip city))

/-- `validate_transaction(t)` from `api/search.py` (string argument; the
accented literals are transcribed with the exact code points stored in the
source file, which is double-encoded). -/
def validate_transaction (t : String) : Option String :=
  if t = "" then none
  else
    let t' := strip_diacritics (pyLower (pyStrip t))
    if t' ∈ ["vanzare", "vand", "cumpar", "cumparare", "vÃ¢nzare"] then
      some "Vanzare"
    else if t' ∈ ["inchiriere", "inchiriez", "chirie", "Ã®nchiriere"] then
      some "Inchiriere"
    else none

/-- `validate_property_type(p)` from `api/search.py` (string argument). -/
def validate_property_type (p : String) : Option String :=
  if p = "" then none
  else
    let p' := strip_diacritics (pyLower (pyStrip p))
    if p' ∈ ["apartament", "apartamente", "ap"] then some "Apartamente"
    else if p' ∈ ["casa", "case", "vila", "vile"] then some "Case"
    else if p' ∈ ["garsoniera", "garsoniere", "studio"] then some "Garsoniera"
    else if p' ∈ ["teren", "terenuri"] then some "Terenuri"
    else none

/-!  ## Context Merge Engine (`validate_parsed_result`)  -/

/-- Python exceptions that the merge code can raise (all are caught by the
bare `except` of `parse_query_with_llm`). -/
inductive PyErr where
  | typeError
  | valueError
  | attributeError
deriving DecidableEq, Repr

/-- `parsed.get(k)` on a Python dict: `None` both when the key is absent and
when it maps to `None` — exactly the two cases the source code never
distinguishes at top level. -/
def pyGet (kvs : List (String × JVal)) (k : String) : JVal :=
  (kvs.lookup k).getD .null

/-- Truncation toward zero, the behaviour of Python `int()` on a float. -/
def ratTrunc (q : ℚ) : ℤ :=
  if 0 ≤ q then ⌊q⌋ else ⌈q⌉

/-- Integer-literal check for Python `int(str)`: optional surrounding
whitespace, optional sign, at least one digit (numeric underscores are not
modelled — no claim exercises them). -/
def intLitDigits : List Char → Option (List Char)
  | [] => none
  | c :: cs =>
    if c = '+' ∨ c = '-' then (if cs.isEmpty then none else some cs) else some (c :: cs)

def pyIntOfStr (s : String) : Except PyErr ℤ :=
  let t := pyStrip s
  match intLitDigits t.data with
  | none => .error .valueError
  | some ds =>
    if ds ≠ [] ∧ ds.all Char.isDigit then
      .ok (if t.data.head? = some '-' then
            -((ds.foldl (fun a c => a * 10 + (c.toNat - '0'.toNat)) 0 : ℕ) : ℤ)
          else ((ds.foldl (fun a c => a * 10 + (c.toNat - '0'.toNat)) 0 : ℕ) : ℤ))
    else .error .valueError

/-- Python `int(v)`: identity on ints, bools are 0/1, floats truncate toward
zero, numeric strings parse, everything else raises. -/
def pyInt : JVal → Except PyErr ℤ
  | .int n => .ok n
  | .bool b => .ok (if b then 1 else 0)
  | .float q => .ok (ratTrunc q)
  | .str s => pyIntOfStr s
  | _ => .error .typeError

/-- `isinstance(v, int)` together with the numeric value: Python's `bool` is
a subclass of `int` (`isinstance(True, int)` is `True` and `True == 1`). -/
def pyIntInstance : JVal → Option ℤ
  | .int n => some n
  | .bool b => some (if b then 1 else 0)
  | _ => none

/-- Membership in a Python set of hashable scalars. -/
def kwMem (v : JVal) (xs : List JVal) : Bool :=
  xs.any (fun x => JVal.scalarEq x v)

/-- Adding one element to a Python set (kept as a duplicate-free list). -/
def kwInsert (xs : List JVal) (v : JVal) : List JVal :=
  if kwMem v xs then xs else xs ++ [v]

/-- `existing_set | new_set` (set union; iteration order abstracted). -/
def kwUnion (xs ys : List JVal) : List JVal :=
  ys.foldl kwInsert xs

/-- `set(xs)` for a Python list: raises `TypeError` on unhashable elements
(lists/dicts), otherwise succeeds. -/
def pyHashable : JVal → Bool
  | .list _ => false
  | .obj _ => false
  | _ => true

/-- The per-field update steps of `validate_parsed_result`, in source order.
Each step takes the parsed LLM dict and the accumulated result. -/

def stepLocation (parsed : List (String × JVal)) (st : FilterState) :
    Except PyErr FilterState :=
  let v := pyGet parsed "location"
  if v.truthy then
    match v with
    | .str s => .ok { st with location := some (strip_diacritics s) }
    | _ => .error .typeError
  else .ok st

def stepCity (parsed : List (String × JVal)) (st : FilterState) :
    Except PyErr FilterState :=
  let v := pyGet parsed "city"
  if v.truthy then
    match v with
    | .str s => .ok { st with city := normalize_city s }
    | _ => .error .attributeError
  else .ok st

def stepTransaction (parsed : List (String × JVal)) (st : FilterState) :
    Except PyErr FilterState :=
  let v := pyGet parsed "transaction"
  if v.truthy then
    match v with
    | .str s =>
      match validate_transaction s with
      | some t => .ok { st with transaction := some t }
      | none => .ok st
    | _ => .error .attributeError
  else .ok st

def stepPropertyType (parsed : List (String × JVal)) (st : FilterState) :
    Except PyErr FilterState :=
  let v := pyGet parsed "property_type"
  if v.truthy then
    match v with
    | .str s =>
      match validate_property_type s with
      | some t => .ok { st with property_type := some t }
      | none => .ok st
    | _ => .error .attributeError
  else .ok st

def stepRooms (parsed : List (String × JVal)) (st : FilterState) : FilterState :=
  let v := pyGet parsed "rooms"
  if v.isNull then st
  else
    match pyIntInstance v with
    | some n => if 1 ≤ n ∧ n ≤ 5 then { st with rooms := some n } else st
    | none => st

def stepPriceMin (parsed : List (String × JVal)) (st : FilterState) :
    Except PyErr FilterState :=
  let v := pyGet parsed "price_min"
  if v.isNull then .ok st
  else if v.truthy then do
    let n ← pyInt v
    .ok { st with price_min := some n }
  else .ok { st with price_min := none }

def stepPriceMax (parsed : List (String × JVal)) (st : FilterState) :
    Except PyErr FilterState :=
  let v := pyGet parsed "price_max"
  if v.isNull then .ok st
  else if v.truthy then do
    let n ← pyInt v
    .ok { st with price_max := some n }
  else .ok { st with price_max := none }

def stepKeywords (parsed : List (String × JVal)) (st : FilterState) :
    Except PyErr FilterState :=
  let v := pyGet parsed "keywords"
  if v.truthy then
    match v with
    | .list xs =>
      if xs.all pyHashable then
        .ok { st with keywords := kwUnion st.keywords xs }
      else .error .typeError
    | _ => .ok { st with keywords := kwUnion st.keywords [] }
  else .ok st

/-- One feature key of the inner loop: `val = parsed["features"].get(f)`;
`"WANT"`/`"EXCLUDE"` overwrite, an explicitly present `None` clears, anything
else (including absence) is a no-op. -/
def featUpd (fkvs : List (String × JVal)) (name : String)
    (cur : Option FeatVal) : Option FeatVal :=
  match fkvs.lookup name with
  | none => cur
  | some (.str s) =>
    if s = "WANT" then some .want
    else if s = "EXCLUDE" then some .exclude
    else cur
  | some .null => none
  | some _ => cur

def stepFeatures (parsed : List (String × JVal)) (st : FilterState) :
    Except PyErr FilterState :=
  let v := pyGet parsed "features"
  if v.truthy then
    match v with
    | .obj fkvs =>
      .ok { st with features :=
        { animale := featUpd fkvs "animale" st.features.animale,
          fumatori := featUpd fkvs "fumatori" st.features.fumatori,
          parcare := featUpd fkvs "parcare" st.features.parcare,
          mobilat := featUpd fkvs "mobilat" st.features.mobilat,
          centrala := featUpd fkvs "centrala" st.features.centrala } }
    | _ => .error .attributeError
  else .ok st

/-- `exclude_keywords` from `api/search.py` (exact code points of the source
file, which stores its accented literals double-encoded). -/
def exclude_keywords : List String :=
  ["fara agentii", "fÄƒrÄƒ agenÈ›ii", "doar particulari", "nu agenti",
   "private only", "no agents", "fara agentie", "fÄƒrÄƒ agenÈ›ie",
   "particulari", "fara agenti"]

/-- `needle in hay` on Python strings (contiguous substring). -/
def containsSeq (needle : List Char) : List Char → Bool
  | [] => needle.isEmpty
  | c :: rest => needle.isPrefixOf (c :: rest) || containsSeq needle rest

def stepExclude (parsed : List (String × JVal)) (user_query : String)
    (st : FilterState) : FilterState :=
  let query_lower := pyLower user_query
  if (pyGet parsed "exclude_agencies").isTrueLit
      || exclude_keywords.any (fun kw => containsSeq kw.data query_lower.data) then
    { st with exclude_agencies := true }
  else st

/-- `validate_parsed_result(parsed, context, user_query)` from
`api/search.py`: starts from a deep copy of the context and applies the
field updates in source order; any raised exception propagates to the
caller (`parse_query_with_llm`), which catches it. -/
def validate_parsed_result (parsed : List (String × JVal))
    (context : FilterState) (user_query : String) :
    Except PyErr FilterState := do
  let st := context
  let st ← stepLocation parsed st
  let st ← stepCity parsed st
  let st ← stepTransaction parsed st
  let st ← stepPropertyType parsed st
  let st := stepRooms parsed st
  let st ← stepPriceMin parsed st
  let st ← stepPriceMax parsed st
  let st ← stepKeywords parsed st
  let st ← stepFeatures parsed st
  .ok (stepExclude parsed user_query st)

/-!  ## Intent Extraction Adapter (`parse_query_with_llm`)  -/

/-- Observable outcome of the language-model call as seen by the rest of
`parse_query_with_llm`: the HTTP POST plus the repair pipeline (code-fence
stripping, first-`{`/last-`}` slicing, trailing-comma removal, newline
collapsing) followed by `json.loads` either raises (network error, timeout,
unparseable text — `fail`), yields an empty `response` field (`empty`), or
yields a parsed JSON value (`parsedJson`). -/
inductive LLMOutcome where
  | fail
  | empty
  | parsedJson (v : JVal)

/-- `validate_parsed_result` as called on an arbitrary `json.loads` result:
a non-dict value raises `AttributeError` at the first `parsed.get(...)`. -/
def validateJ (v : JVal) (context : FilterState) (user_query : String) :
    Except PyErr FilterState :=
  match v with
  | .obj kvs => validate_parsed_result kvs context user_query
  | _ => .error .attributeError

/-- `parse_query_with_llm(user_query, current_context)` from `api/search.py`:
everything inside the `try` that raises is caught by the bare `except`,
which returns `current_context`; the empty-response early return also
returns `current_context`. -/
def parse_query_with_llm (outcome : LLMOutcome) (current_context : FilterState)
    (user_query : String) : FilterState :=
  match outcome with
  | .fail => current_context
  | .empty => current_context
  | .parsedJson v =>
    match validateJ v current_context user_query with
    | .ok r => r
    | .error _ => current_context

/-- The tail of `search()` in `api/search.py` that decides what is persisted
and returned: a non-None `exclude_agencies_override` is written into the
merged dict after parsing (`parsed["exclude_agencies"] = override`), and that
dict is what `save_memory` stores and the response echoes. -/
def applyOverride (st : FilterState) (ov : Option Bool) : FilterState :=
  match ov with
  | none => st
  | some b => { st with exclude_agencies := b }

/-- The merged filter dict of one `search()` request, as persisted. -/
def mergedFilters (outcome : LLMOutcome) (prior : FilterState)
    (user_query : String) (ov : Option Bool) : FilterState :=
  applyOverride (parse_query_with_llm outcome prior user_query) ov

/-- `N` successive successful merges of one session (each turn's parsed
delta dict and raw query text), with any raised exception propagated. -/
def foldValidate (init : FilterState) :
    List (List (String × JVal) × String) → Except PyErr FilterState
  | [] => .ok init
  | (parsed, q) :: rest => do
    let st ← validate_parsed_result parsed init q
    foldValidate st rest

/-!  ## Hybrid Query Compiler (`build_opensearch_query`)  -/

/-- One clause of the compiled OpenSearch query body. -/
inductive QClause where
  | term (field : String) (value : String)
  | termB (field : String) (value : String) (boost : ℚ)
  | matchB (field : String) (query : JVal) (boost : ℚ)
  | matchFuzzy (field : String) (query : String) (fuzzinessAuto : Bool) (boost : ℚ)
  | orGroup (shoulds : List QClause) (minShouldMatch : ℕ)
  | rangeQ (field : String) (gte lte : Option ℤ)
  | matchPhrase (field : String) (phrase : String)
  | neural (field : String) (queryText : String) (modelId : String) (k : ℕ)
  | matchAll

/-- The compiled query body: `size`, `from`, the three bool-clause lists
(`should`/`minimum_should_match: 0` present only when non-empty, mirrored by
keeping the list and a flag), and the `_source` projection. -/
structure OSQuery where
  size : ℕ
  fromOffset : ℕ
  must : List QClause
  should : List QClause
  minShouldMatchZero : Bool
  must_not : List QClause
  sourceFields : List String

/-- `settings.embedding_model_id` (deployment configuration, opaque here). -/
def embedding_model_id : String := "settings.embedding_model_id"

/-- `re.search(r'(\d+)', s)`: the first maximal run of decimal digits. -/
def firstDigitRun (l : List Char) : Option (List Char) :=
  match l.dropWhile (fun c => !c.isDigit) with
  | [] => none
  | ds => some (ds.takeWhile Char.isDigit)

/-- The location block of `build_opensearch_query`: a sector-token location
emits the two-spelling exact OR-group on `location_2`; otherwise the boosted
exact/fuzzy/title/description OR-group. -/
def locationClauses (location : Option String) : List QClause :=
  match location with
  | none => []
  | some loc =>
    if loc = "" then []
    else
      if containsSeq "sector".data (loc.data.map Char.toLower) then
        match firstDigitRun loc.data with
        | some ds =>
          [.orGroup [.term "location_2" ("Sector " ++ ds.asString),
                     .term "location_2" ("Sectorul " ++ ds.asString)] 1]
        | none => []
      else
        [.orGroup [.termB "location_3" loc 3,
                   .matchFuzzy "location_3" loc true (5/2),
                   .matchB "driver_title" (.str loc) 2,
                   .matchB "description" (.str loc) 1] 1]

/-- The rooms block: `rooms == 1` also matches the `Garsoniera` tag. -/
def roomsClauses (rooms : Option ℤ) : List QClause :=
  match rooms with
  | none => []
  | some r =>
    if r = 0 then []
    else if r = 1 then
      [.orGroup [.term "categories" "1 camere",
                 .term "categories" "Garsoniera"] 1]
    else [.term "categories" (toString r ++ " camere")]

/-- The price block: bounds participate only when truthy (non-zero). -/
def priceClauses (price_min price_max : Option ℤ) : List QClause :=
  let gte := price_min.bind (fun n => if n = 0 then none else some n)
  let lte := price_max.bind (fun n => if n = 0 then none else some n)
  match gte, lte with
  | none, none => []
  | _, _ => [.rangeQ "price" gte lte]

/-- One keyword's OR-group (title boost 2.0 / description boost 1.0). -/
def keywordClause (kw : JVal) : QClause :=
  .orGroup [.matchB "driver_title" kw 2,
            .matchB "description" kw 1] 1

/-- `FEATURE_PATTERNS[name]["positive_boost"]` (exact code points of the
source file, which stores its accented literals double-encoded). -/
def featurePositive (name : String) : String :=
  if name = "animale" then
    "accepta animale pet friendly pisici caini animale de companie se accepta animal"
  else if name = "fumatori" then
    "fumatori acceptati se poate fuma accept fumatori"
  else if name = "parcare" then
    "loc parcare garaj parcare inclusa parcare subterana boxa"
  else if name = "mobilat" then
    "mobilat complet utilat mobilat modern complet mobilat"
  else if name = "centrala" then
    "centrala proprie centrala termica incalzire autonoma"
  else ""

/-- `FEATURE_PATTERNS[name]["negative_patterns"]`. -/
def featureNegatives (name : String) : List String :=
  if name = "animale" then
    ["nu se accepta animale", "nu se acceptÄƒ animale", "nu accept animale",
     "nu accepta animale", "nu acceptam animale", "fara animale", "fÄƒrÄƒ animale",
     "exclus animale", "nu se accepta animale de companie", "nu accept animale de companie",
     "nu sunt acceptate animale", "nu se acceptÄƒ animale de companie"]
  else if name = "fumatori" then
    ["nu accept fumatori", "nu accept fumÄƒtori", "fara fumatori", "fÄƒrÄƒ fumÄƒtori",
     "nefumatori", "non fumatori", "nu se fumeaza", "interzis fumatul", "exclus fumatori"]
  else if name = "parcare" then
    ["fara parcare", "fÄƒrÄƒ parcare", "nu are parcare"]
  else if name = "mobilat" then
    ["nemobilat", "neutilat", "fara mobila", "fÄƒrÄƒ mobilÄƒ", "gol"]
  else if name = "centrala" then
    ["fara centrala", "Ã®ncÄƒlzire centralizatÄƒ"]
  else []

/-- One iteration of the features loop: a WANT feature contributes its
positive-boost blob to the neural text and one `must_not` phrase exclusion
per negative pattern; an EXCLUDE feature contributes the first three
negative patterns to the neural text only. -/
def featureStep (name : String) (fval : Option FeatVal)
    (acc : List String × List QClause) : List String × List QClause :=
  match fval with
  | none => acc
  | some .want =>
    (acc.1 ++ [featurePositive name],
     acc.2 ++ (featureNegatives name).map (fun p => .matchPhrase "description" p))
  | some .exclude =>
    (acc.1 ++ (featureNegatives name).take 3, acc.2)

/-- The features loop over the five fixed keys in dict (insertion) order. -/
def featureAccum (f : Features) : List String × List QClause :=
  featureStep "centrala" f.centrala
    (featureStep "mobilat" f.mobilat
      (featureStep "parcare" f.parcare
        (featureStep "fumatori" f.fumatori
          (featureStep "animale" f.animale ([], [])))))

/-- The fixed `_source` projection list. -/
def sourceProjection : List String :=
  ["driver_title", "name", "description", "price", "currency",
   "location_1", "location_2", "location_3", "coordinates",
   "ad_url", "ad_id", "categories", "attributes",
   "src_images", "images", "decrypted_phone", "source", "ad_source",
   "valid_from", "user_name", "is_agent"]

/-- The assembly of `build_opensearch_query` given the already-computed
location clause list (split out so that congruence in the location clauses
can be stated); the body past the location block, verbatim. -/
def assembleQuery (locCl : List QClause) (parsed : FilterState)
    (size : ℕ) (offset : ℕ) : OSQuery :=
  let must0 :=
    locCl
    ++ (match parsed.city with
        | some c => if c = "" then [] else [.term "location_1" c]
        | none => [])
    ++ (match parsed.transaction with
        | some t => if t = "" then [] else [.term "categories" t]
        | none => [])
    ++ (match parsed.property_type with
        | some p => if p = "" then [] else [.term "categories" p]
        | none => [])
    ++ roomsClauses parsed.rooms
    ++ priceClauses parsed.price_min parsed.price_max
    ++ parsed.keywords.map keywordClause
  let fa := featureAccum parsed.features
  let should :=
    if fa.1.isEmpty then []
    else [.neural "listing_vector" (" ".intercalate fa.1) embedding_model_id 100]
  let must_not :=
    fa.2 ++ (if parsed.exclude_agencies then [.term "is_agent" "true"] else [])
  { size := size,
    fromOffset := offset,
    must := if must0.isEmpty then [.matchAll] else must0,
    should := should,
    minShouldMatchZero := !should.isEmpty,
    must_not := must_not,
    sourceFields := sourceProjection }

/-- `build_opensearch_query(parsed, size, offset)` from `api/search.py`. -/
def build_opensearch_query (parsed : FilterState) (size : ℕ := 25)
    (offset : ℕ := 0) : OSQuery :=
  assembleQuery (locationClauses parsed.location) parsed size offset

/-!  ## Result Ranker/Formatter (`format_result`, score computation)  -/

/-- The relevance-score computation of `format_result` (lines 700–702):
`int((raw_score / max_score) * 100) if max_score > 0 else 0`, then clamped
with `min(100, max(0, score))`.  Scores are embedded as exact rationals;
Python `int()` truncates toward zero. -/
def format_score (raw_score max_score : ℚ) : ℤ :=
  let score : ℤ := if max_score > 0 then ratTrunc (raw_score / max_score * 100) else 0
  min 100 (max 0 score)

/-- Modelled from the spec (§4.5): `clamp(round(hit.rawScore /
maxScoreInResponse * 100), 0, 100)`, with score 0 when
`maxScoreInResponse <= 0` — the formula the spec claims, for comparison with
`format_score` above. -/
def spec_score (raw_score max_score : ℚ) : ℤ :=
  if max_score > 0 then min 100 (max 0 (round (raw_score / max_score * 100)))
  else 0

/-- `v.isObjB`: is the parsed JSON value a dict (the only shape
`validate_parsed_result` accepts without raising). -/
def JVal.isObjB : JVal → Bool
  | .obj _ => true
  | _ => false

/-- The set of keywords a parsed delta dict supplies to the merge (the
elements of its `keywords` list, as tested against a value `v` under Python
`==`); a missing/empty/non-list `keywords` entry supplies nothing. -/
def kwSupplied (v : JVal) (parsed : List (String × JVal)) : Bool :=
  match pyGet parsed "keywords" with
  | .list xs => xs.any (fun x => JVal.scalarEq x v)
  | _ => false

/-- The condition under which `validate_parsed_result` switches
`exclude_agencies` on: the delta says literally `True`, or the case-folded
raw query text contains one of the fixed private-sellers phrases. -/
def excludeTriggered (parsed : List (String × JVal)) (user_query : String) : Bool :=
  (pyGet parsed "exclude_agencies").isTrueLit
    || exclude_keywords.any (fun kw => containsSeq kw.data (pyLower user_query).data)

/-!  ## Helper lemmas  -/

theorem exceptBind_ok {ε α β : Type} {x : Except ε α} {f : α → Except ε β}
    {b : β} (h : x >>= f = .ok b) : ∃ a, x = .ok a ∧ f a = .ok b := by
  cases x with
  | ok a => exact ⟨a, rfl, h⟩
  | error e => simp [Bind.bind, Except.bind] at h

theorem truthy_isNull_false {v : JVal} (h : v.truthy = true) :
    v.isNull = false := by
  cases v <;> simp_all [JVal.truthy, JVal.isNull]

/-- All fields of the state other than `location` are untouched by
`stepLocation`. -/
theorem stepLocation_frame {parsed : List (String × JVal)} {st st' : FilterState}
    (h : stepLocation parsed st = .ok st') :
    st'.city = st.city ∧ st'.transaction = st.transaction ∧
    st'.property_type = st.property_type ∧ st'.rooms = st.rooms ∧
    st'.price_min = st.price_min ∧ st'.price_max = st.price_max ∧
    st'.keywords = st.keywords ∧ st'.features = st.features ∧
    st'.exclude_agencies = st.exclude_agencies := by
  simp only [stepLocation] at h
  split at h
  · split at h <;> first
      | exact Except.noConfusion h
      | (cases h; exact ⟨rfl, rfl, rfl, rfl, rfl, rfl, rfl, rfl, rfl⟩)
  · cases h; exact ⟨rfl, rfl, rfl, rfl, rfl, rfl, rfl, rfl, rfl⟩

/-- All fields other than `city` are untouched by `stepCity`. -/
theorem stepCity_frame {parsed : List (String × JVal)} {st st' : FilterState}
    (h : stepCity parsed st = .ok st') :
    st'.location = st.location ∧ st'.transaction = st.transaction ∧
    st'.property_type = st.property_type ∧ st'.rooms = st.rooms ∧
    st'.price_min = st.price_min ∧ st'.price_max = st.price_max ∧
    st'.keywords = st.keywords ∧ st'.features = st.features ∧
    st'.exclude_agencies = st.exclude_agencies := by
  simp only [stepCity] at h
  split at h
  · split at h <;> first
      | exact Except.noConfusion h
      | (cases h; exact ⟨rfl, rfl, rfl, rfl, rfl, rfl, rfl, rfl, rfl⟩)
  · cases h; exact ⟨rfl, rfl, rfl, rfl, rfl, rfl, rfl, rfl, rfl⟩

/-- All fields other than `transaction` are untouched by `stepTransaction`. -/
theorem stepTransaction_frame {parsed : List (String × JVal)}
    {st st' : FilterState} (h : stepTransaction parsed st = .ok st') :
    st'.location = st.location ∧ st'.city = st.city ∧
    st'.property_type = st.property_type ∧ st'.rooms = st.rooms ∧
    st'.price_min = st.price_min ∧ st'.price_max = st.price_max ∧
    st'.keywords = st.keywords ∧ st'.features = st.features ∧
    st'.exclude_agencies = st.exclude_agencies := by
  simp only [stepTransaction] at h
  split at h
  · split at h <;> first
      | exact Except.noConfusion h
      | (split at h <;> (cases h; exact ⟨rfl, rfl, rfl, rfl, rfl, rfl, rfl, rfl, rfl⟩))
  · cases h; exact ⟨rfl, rfl, rfl, rfl, rfl, rfl, rfl, rfl, rfl⟩

/-- All fields other than `property_type` are untouched by `stepPropertyType`. -/
theorem stepPropertyType_frame {parsed : List (String × JVal)}
    {st st' : FilterState} (h : stepPropertyType parsed st = .ok st') :
    st'.location = st.location ∧ st'.city = st.city ∧
    st'.transaction = st.transaction ∧ st'.rooms = st.rooms ∧
    st'.price_min = st.price_min ∧ st'.price_max = st.price_max ∧
    st'.keywords = st.keywords ∧ st'.features = st.features ∧
    st'.exclude_agencies = st.exclude_agencies := by
  simp only [stepPropertyType] at h
  split at h
  · split at h <;> first
      | exact Except.noConfusion h
      | (split at h <;> (cases h; exact ⟨rfl, rfl, rfl, rfl, rfl, rfl, rfl, rfl, rfl⟩))
  · cases h; exact ⟨rfl, rfl, rfl, rfl, rfl, rfl, rfl, rfl, rfl⟩

/-- All fields other than `rooms` are untouched by `stepRooms`. -/
theorem stepRooms_frame (parsed : List (String × JVal)) (st : FilterState) :
    (stepRooms parsed st).location = st.location ∧
    (stepRooms parsed st).city = st.city ∧
    (stepRooms parsed st).transaction = st.transaction ∧
    (stepRooms parsed st).property_type = st.property_type ∧
    (stepRooms parsed st).price_min = st.price_min ∧
    (stepRooms parsed st).price_max = st.price_max ∧
    (stepRooms parsed st).keywords = st.keywords ∧
    (stepRooms parsed st).features = st.features ∧
    (stepRooms parsed st).exclude_agencies = st.exclude_agencies := by
  simp only [stepRooms]
  split
  · exact ⟨rfl, rfl, rfl, rfl, rfl, rfl, rfl, rfl, rfl⟩
  · split
    · split <;> exact ⟨rfl, rfl, rfl, rfl, rfl, rfl, rfl, rfl, rfl⟩
    · exact ⟨rfl, rfl, rfl, rfl, rfl, rfl, rfl, rfl, rfl⟩

/-- All fields other than `price_min` are untouched by `stepPriceMin`. -/
theorem stepPriceMin_frame {parsed : List (String × JVal)}
    {st st' : FilterState} (h : stepPriceMin parsed st = .ok st') :
    st'.location = st.location ∧ st'.city = st.city ∧
    st'.transaction = st.transaction ∧ st'.property_type = st.property_type ∧
    st'.rooms = st.rooms ∧ st'.price_max = st.price_max ∧
    st'.keywords = st.keywords ∧ st'.features = st.features ∧
    st'.exclude_agencies = st.exclude_agencies := by
  simp only [stepPriceMin] at h
  split at h
  · cases h; exact ⟨rfl, rfl, rfl, rfl, rfl, rfl, rfl, rfl, rfl⟩
  · split at h
    · obtain ⟨n, _, hf⟩ := exceptBind_ok h
      cases hf; exact ⟨rfl, rfl, rfl, rfl, rfl, rfl, rfl, rfl, rfl⟩
    · cases h; exact ⟨rfl, rfl, rfl, rfl, rfl, rfl, rfl, rfl, rfl⟩

/-- All fields other than `price_max` are untouched by `stepPriceMax`. -/
theorem stepPriceMax_frame {parsed : List (String × JVal)}
    {st st' : FilterState} (h : stepPriceMax parsed st = .ok st') :
    st'.location = st.location ∧ st'.city = st.city ∧
    st'.transaction = st.transaction ∧ st'.property_type = st.property_type ∧
    st'.rooms = st.rooms ∧ st'.price_min = st.price_min ∧
    st'.keywords = st.keywords ∧ st'.features = st.features ∧
    st'.exclude_agencies = st.exclude_agencies := by
  simp only [stepPriceMax] at h
  split at h
  · cases h; exact ⟨rfl, rfl, rfl, rfl, rfl, rfl, rfl, rfl, rfl⟩
  · split at h
    · obtain ⟨n, _, hf⟩ := exceptBind_ok h
      cases hf; exact ⟨rfl, rfl, rfl, rfl, rfl, rfl, rfl, rfl, rfl⟩
    · cases h; exact ⟨rfl, rfl, rfl, rfl, rfl, rfl, rfl, rfl, rfl⟩

/-- All fields other than `keywords` are untouched by `stepKeywords`. -/
theorem stepKeywords_frame {parsed : List (String × JVal)}
    {st st' : FilterState} (h : stepKeywords parsed st = .ok st') :
    st'.location = st.location ∧ st'.city = st.city ∧
    st'.transaction = st.transaction ∧ st'.property_type = st.property_type ∧
    st'.rooms = st.rooms ∧ st'.price_min = st.price_min ∧
    st'.price_max = st.price_max ∧ st'.features = st.features ∧
    st'.exclude_agencies = st.exclude_agencies := by
  simp only [stepKeywords] at h
  split at h
  · split at h <;> first
      | exact Except.noConfusion h
      | (split at h <;> first
          | exact Except.noConfusion h
          | (cases h; exact ⟨rfl, rfl, rfl, rfl, rfl, rfl, rfl, rfl, rfl⟩))
      | (cases h; exact ⟨rfl, rfl, rfl, rfl, rfl, rfl, rfl, rfl, rfl⟩)
  · cases h; exact ⟨rfl, rfl, rfl, rfl, rfl, rfl, rfl, rfl, rfl⟩

/-- All fields other than `features` are untouched by `stepFeatures`. -/
theorem stepFeatures_frame {parsed : List (String × JVal)}
    {st st' : FilterState} (h : stepFeatures parsed st = .ok st') :
    st'.location = st.location ∧ st'.city = st.city ∧
    st'.transaction = st.transaction ∧ st'.property_type = st.property_type ∧
    st'.rooms = st.rooms ∧ st'.price_min = st.price_min ∧
    st'.price_max = st.price_max ∧ st'.keywords = st.keywords ∧
    st'.exclude_agencies = st.exclude_agencies := by
  simp only [stepFeatures] at h
  split at h
  · split at h <;> first
      | exact Except.noConfusion h
      | (cases h; exact ⟨rfl, rfl, rfl, rfl, rfl, rfl, rfl, rfl, rfl⟩)
  · cases h; exact ⟨rfl, rfl, rfl, rfl, rfl, rfl, rfl, rfl, rfl⟩

/-- All fields other than `exclude_agencies` are untouched by `stepExclude`. -/
theorem stepExclude_frame (parsed : List (String × JVal)) (q : String)
    (st : FilterState) :
    (stepExclude parsed q st).location = st.location ∧
    (stepExclude parsed q st).city = st.city ∧
    (stepExclude parsed q st).transaction = st.transaction ∧
    (stepExclude parsed q st).property_type = st.property_type ∧
    (stepExclude parsed q st).rooms = st.rooms ∧
    (stepExclude parsed q st).price_min = st.price_min ∧
    (stepExclude parsed q st).price_max = st.price_max ∧
    (stepExclude parsed q st).keywords = st.keywords ∧
    (stepExclude parsed q st).features = st.features := by
  simp only [stepExclude]
  split <;> exact ⟨rfl, rfl, rfl, rfl, rfl, rfl, rfl, rfl, rfl⟩

theorem scalarEq_trans {a b c : JVal} (h1 : a.scalarEq b = true)
    (h2 : b.scalarEq c = true) : a.scalarEq c = true := by
  unfold JVal.scalarEq at *
  cases ha : a.sKey <;> cases hb : b.sKey <;> cases hc : c.sKey <;> simp_all

theorem kwMem_kwInsert (xs : List JVal) (x v : JVal) :
    kwMem v (kwInsert xs x) = (kwMem v xs || x.scalarEq v) := by
  unfold kwInsert
  split
  · rename_i hmem
    cases hsv : x.scalarEq v
    · simp
    · simp only [Bool.or_true]
      unfold kwMem at *
      rcases List.any_eq_true.mp hmem with ⟨y, hy, hyx⟩
      exact List.any_eq_true.mpr ⟨y, hy, scalarEq_trans hyx hsv⟩
  · unfold kwMem
    simp [List.any_append]

theorem kwMem_kwUnion (xs ys : List JVal) (v : JVal) :
    kwMem v (kwUnion xs ys) = (kwMem v xs || ys.any (fun x => x.scalarEq v)) := by
  induction ys generalizing xs with
  | nil => simp [kwUnion]
  | cons y ys ih =>
    show kwMem v (kwUnion (kwInsert xs y) ys) = _
    rw [ih, kwMem_kwInsert]
    simp [Bool.or_assoc]

theorem kwSupplied_of_not_truthy {parsed : List (String × JVal)} {v : JVal}
    (h : (pyGet parsed "keywords").truthy = false) :
    kwSupplied v parsed = false := by
  unfold kwSupplied
  cases hv : pyGet parsed "keywords" <;> simp_all [JVal.truthy]

/-- Membership in the merged keyword set after `stepKeywords`: prior
membership or membership in the delta's supplied keyword list. -/
theorem stepKeywords_mem {parsed : List (String × JVal)} {st st' : FilterState}
    (h : stepKeywords parsed st = .ok st') (v : JVal) :
    kwMem v st'.keywords = (kwMem v st.keywords || kwSupplied v parsed) := by
  simp only [stepKeywords] at h
  split at h
  · rename_i htr
    split at h
    · rename_i xs hv
      split at h
      · cases h
        rw [kwMem_kwUnion]
        unfold kwSupplied
        rw [hv]
      · exact Except.noConfusion h
    · rename_i hnl
      cases h
      show kwMem v (kwUnion st.keywords []) = _
      rw [kwMem_kwUnion]
      unfold kwSupplied
      cases hv : pyGet parsed "keywords" <;> simp_all
  · rename_i htr
    cases h
    rw [kwSupplied_of_not_truthy (by simpa using htr)]
    simp

theorem stepLocation_skip {parsed : List (String × JVal)} (st : FilterState)
    (h : (pyGet parsed "location").truthy = false) :
    stepLocation parsed st = .ok st := by
  simp [stepLocation, h]

theorem stepCity_skip {parsed : List (String × JVal)} (st : FilterState)
    (h : (pyGet parsed "city").truthy = false) :
    stepCity parsed st = .ok st := by
  simp [stepCity, h]

theorem stepTransaction_skip {parsed : List (String × JVal)} (st : FilterState)
    (h : (pyGet parsed "transaction").truthy = false) :
    stepTransaction parsed st = .ok st := by
  simp [stepTransaction, h]

theorem stepPropertyType_skip {parsed : List (String × JVal)} (st : FilterState)
    (h : (pyGet parsed "property_type").truthy = false) :
    stepPropertyType parsed st = .ok st := by
  simp [stepPropertyType, h]

theorem stepKeywords_skip {parsed : List (String × JVal)} (st : FilterState)
    (h : (pyGet parsed "keywords").truthy = false) :
    stepKeywords parsed st = .ok st := by
  simp [stepKeywords, h]

theorem stepFeatures_skip {parsed : List (String × JVal)} (st : FilterState)
    (h : (pyGet parsed "features").truthy = false) :
    stepFeatures parsed st = .ok st := by
  simp [stepFeatures, h]

/-- The value of `rooms` after `stepRooms`: an int-instance (including
Python's bools) in 1..5 overwrites, everything else leaves the prior value. -/
theorem stepRooms_rooms (parsed : List (String × JVal)) (st : FilterState) :
    (stepRooms parsed st).rooms =
      (match pyIntInstance (pyGet parsed "rooms") with
       | some n => if 1 ≤ n ∧ n ≤ 5 then some n else st.rooms
       | none => st.rooms) := by
  simp only [stepRooms]
  cases hv : pyGet parsed "rooms" <;>
    simp [JVal.isNull, pyIntInstance] <;> split <;> simp

/-- `stepPriceMin` with a truthy convertible value overwrites. -/
theorem stepPriceMin_set {parsed : List (String × JVal)} {n : ℤ}
    (st : FilterState) (ht : (pyGet parsed "price_min").truthy = true)
    (hc : pyInt (pyGet parsed "price_min") = .ok n) :
    stepPriceMin parsed st = .ok { st with price_min := some n } := by
  simp [stepPriceMin, truthy_isNull_false ht, ht, hc, Bind.bind, Except.bind]

/-- `stepPriceMin` with a truthy non-convertible value raises. -/
theorem stepPriceMin_err {parsed : List (String × JVal)} {e : PyErr}
    (st : FilterState) (ht : (pyGet parsed "price_min").truthy = true)
    (hc : pyInt (pyGet parsed "price_min") = .error e) :
    stepPriceMin parsed st = .error e := by
  simp [stepPriceMin, truthy_isNull_false ht, ht, hc, Bind.bind, Except.bind]

/-- `stepPriceMin` with a present falsy value clears the bound to null. -/
theorem stepPriceMin_clear {parsed : List (String × JVal)} (st : FilterState)
    (hn : (pyGet parsed "price_min").isNull = false)
    (ht : (pyGet parsed "price_min").truthy = false) :
    stepPriceMin parsed st = .ok { st with price_min := none } := by
  simp [stepPriceMin, hn, ht]

theorem stepPriceMin_skip {parsed : List (String × JVal)} (st : FilterState)
    (hn : (pyGet parsed "price_min").isNull = true) :
    stepPriceMin parsed st = .ok st := by
  simp [stepPriceMin, hn]

theorem stepPriceMax_set {parsed : List (String × JVal)} {n : ℤ}
    (st : FilterState) (ht : (pyGet parsed "price_max").truthy = true)
    (hc : pyInt (pyGet parsed "price_max") = .ok n) :
    stepPriceMax parsed st = .ok { st with price_max := some n } := by
  simp [stepPriceMax, truthy_isNull_false ht, ht, hc, Bind.bind, Except.bind]

theorem stepPriceMax_err {parsed : List (String × JVal)} {e : PyErr}
    (st : FilterState) (ht : (pyGet parsed "price_max").truthy = true)
    (hc : pyInt (pyGet parsed "price_max") = .error e) :
    stepPriceMax parsed st = .error e := by
  simp [stepPriceMax, truthy_isNull_false ht, ht, hc, Bind.bind, Except.bind]

theorem stepPriceMax_clear {parsed : List (String × JVal)} (st : FilterState)
    (hn : (pyGet parsed "price_max").isNull = false)
    (ht : (pyGet parsed "price_max").truthy = false) :
    stepPriceMax parsed st = .ok { st with price_max := none } := by
  simp [stepPriceMax, hn, ht]

theorem stepPriceMax_skip {parsed : List (String × JVal)} (st : FilterState)
    (hn : (pyGet parsed "price_max").isNull = true) :
    stepPriceMax parsed st = .ok st := by
  simp [stepPriceMax, hn]

/-- `stepExclude` in terms of the trigger condition. -/
theorem stepExclude_eq (parsed : List (String × JVal)) (q : String)
    (st : FilterState) :
    stepExclude parsed q st =
      (if excludeTriggered parsed q then { st with exclude_agencies := true }
       else st) := by
  simp only [stepExclude, excludeTriggered]

/-- `stepExclude` never switches `exclude_agencies` off. -/
theorem stepExclude_sticky (parsed : List (String × JVal)) (q : String)
    (st : FilterState) (h : st.exclude_agencies = true) :
    (stepExclude parsed q st).exclude_agencies = true := by
  rw [stepExclude_eq]
  split <;> simp [h]

/-- Chain decomposition of a successful `validate_parsed_result`. -/
theorem validate_ok_decomp {parsed : List (String × JVal)} {ctx : FilterState}
    {q : String} {m : FilterState}
    (h : validate_parsed_result parsed ctx q = .ok m) :
    ∃ s1 s2 s3 s4 s6 s7 s8 s9,
      stepLocation parsed ctx = .ok s1 ∧ stepCity parsed s1 = .ok s2 ∧
      stepTransaction parsed s2 = .ok s3 ∧
      stepPropertyType parsed s3 = .ok s4 ∧
      stepPriceMin parsed (stepRooms parsed s4) = .ok s6 ∧
      stepPriceMax parsed s6 = .ok s7 ∧ stepKeywords parsed s7 = .ok s8 ∧
      stepFeatures parsed s8 = .ok s9 ∧ m = stepExclude parsed q s9 := by
  unfold validate_parsed_result at h
  obtain ⟨s1, h1, h⟩ := exceptBind_ok h
  obtain ⟨s2, h2, h⟩ := exceptBind_ok h
  obtain ⟨s3, h3, h⟩ := exceptBind_ok h
  obtain ⟨s4, h4, h⟩ := exceptBind_ok h
  obtain ⟨s6, h6, h⟩ := exceptBind_ok h
  obtain ⟨s7, h7, h⟩ := exceptBind_ok h
  obtain ⟨s8, h8, h⟩ := exceptBind_ok h
  obtain ⟨s9, h9, h⟩ := exceptBind_ok h
  cases h
  exact ⟨s1, s2, s3, s4, s6, s7, s8, s9, h1, h2, h3, h4, h6, h7, h8, h9, rfl⟩

/-- Full field-level characterization of a successful
`validate_parsed_result`: which prior fields survive, and what the supplied
delta values produce. -/
theorem validate_ok_spec {parsed : List (String × JVal)} {ctx : FilterState}
    {q : String} {m : FilterState}
    (h : validate_parsed_result parsed ctx q = .ok m) :
    ((pyGet parsed "location").truthy = false → m.location = ctx.location) ∧
    ((pyGet parsed "city").truthy = false → m.city = ctx.city) ∧
    ((pyGet parsed "transaction").truthy = false →
      m.transaction = ctx.transaction) ∧
    ((pyGet parsed "property_type").truthy = false →
      m.property_type = ctx.property_type) ∧
    (m.rooms = (match pyIntInstance (pyGet parsed "rooms") with
       | some n => if 1 ≤ n ∧ n ≤ 5 then some n else ctx.rooms
       | none => ctx.rooms)) ∧
    ((pyGet parsed "price_min").isNull = true → m.price_min = ctx.price_min) ∧
    ((pyGet parsed "price_min").truthy = true →
       ∃ n, pyInt (pyGet parsed "price_min") = .ok n ∧ m.price_min = some n) ∧
    ((pyGet parsed "price_min").isNull = false →
      (pyGet parsed "price_min").truthy = false → m.price_min = none) ∧
    ((pyGet parsed "price_max").isNull = true → m.price_max = ctx.price_max) ∧
    ((pyGet parsed "price_max").truthy = true →
       ∃ n, pyInt (pyGet parsed "price_max") = .ok n ∧ m.price_max = some n) ∧
    ((pyGet parsed "price_max").isNull = false →
      (pyGet parsed "price_max").truthy = false → m.price_max = none) ∧
    ((pyGet parsed "keywords").truthy = false → m.keywords = ctx.keywords) ∧
    (∀ v, kwMem v m.keywords = (kwMem v ctx.keywords || kwSupplied v parsed)) ∧
    ((pyGet parsed "features").truthy = false → m.features = ctx.features) ∧
    (m.exclude_agencies = (ctx.exclude_agencies || excludeTriggered parsed q)) := by
  obtain ⟨s1, s2, s3, s4, s6, s7, s8, s9, h1, h2, h3, h4, h6, h7, h8, h9, hm⟩ :=
    validate_ok_decomp h
  obtain ⟨a2, a3, a4, a5, a6, a7, a8, a9, a10⟩ := stepLocation_frame h1
  obtain ⟨b1, b3, b4, b5, b6, b7, b8, b9, b10⟩ := stepCity_frame h2
  obtain ⟨c1, c2, c4, c5, c6, c7, c8, c9, c10⟩ := stepTransaction_frame h3
  obtain ⟨d1, d2, d3, d5, d6, d7, d8, d9, d10⟩ := stepPropertyType_frame h4
  obtain ⟨e1, e2, e3, e4, e6, e7, e8, e9, e10⟩ := stepRooms_frame parsed s4
  obtain ⟨g1, g2, g3, g4, g5, g7, g8, g9, g10⟩ := stepPriceMin_frame h6
  obtain ⟨i1, i2, i3, i4, i5, i6, i8, i9, i10⟩ := stepPriceMax_frame h7
  obtain ⟨j1, j2, j3, j4, j5, j6, j7, j9, j10⟩ := stepKeywords_frame h8
  obtain ⟨k1, k2, k3, k4, k5, k6, k7, k8, k10⟩ := stepFeatures_frame h9
  obtain ⟨x1, x2, x3, x4, x5, x6, x7, x8, x9⟩ := stepExclude_frame parsed q s9
  subst hm
  refine ⟨?_, ?_, ?_, ?_, ?_, ?_, ?_, ?_, ?_, ?_, ?_, ?_, ?_, ?_, ?_⟩
  · intro hg
    have hs := stepLocation_skip ctx hg
    rw [hs] at h1
    have e : ctx = s1 := Except.ok.inj h1
    rw [x1, k1, j1, i1, g1, e1, d1, c1, b1, ← e]
  · intro hg
    have hs := stepCity_skip s1 hg
    rw [hs] at h2
    have e : s1 = s2 := Except.ok.inj h2
    rw [x2, k2, j2, i2, g2, e2, d2, c2, ← e, a2]
  · intro hg
    have hs := stepTransaction_skip s2 hg
    rw [hs] at h3
    have e : s2 = s3 := Except.ok.inj h3
    rw [x3, k3, j3, i3, g3, e3, d3, ← e, b3, a3]
  · intro hg
    have hs := stepPropertyType_skip s3 hg
    rw [hs] at h4
    have e : s3 = s4 := Except.ok.inj h4
    rw [x4, k4, j4, i4, g4, e4, ← e, c4, b4, a4]
  · rw [x5, k5, j5, i5, g5, stepRooms_rooms, d5, c5, b5, a5]
  · intro hg
    have hs := stepPriceMin_skip (stepRooms parsed s4) hg
    rw [hs] at h6
    have e : stepRooms parsed s4 = s6 := Except.ok.inj h6
    rw [x6, k6, j6, i6, ← e, e6, d6, c6, b6, a6]
  · intro hg
    cases hc : pyInt (pyGet parsed "price_min") with
    | error er =>
      have hs := stepPriceMin_err (stepRooms parsed s4) hg hc
      rw [hs] at h6
      exact Except.noConfusion h6
    | ok n =>
      refine ⟨n, rfl, ?_⟩
      have hs := stepPriceMin_set (stepRooms parsed s4) hg hc
      rw [hs] at h6
      have e : { stepRooms parsed s4 with price_min := some n } = s6 :=
        Except.ok.inj h6
      rw [x6, k6, j6, i6, ← e]
  · intro hn hg
    have hs := stepPriceMin_clear (stepRooms parsed s4) hn hg
    rw [hs] at h6
    have e : { stepRooms parsed s4 with price_min := none } = s6 :=
      Except.ok.inj h6
    rw [x6, k6, j6, i6, ← e]
  · intro hg
    have hs := stepPriceMax_skip s6 hg
    rw [hs] at h7
    have e : s6 = s7 := Except.ok.inj h7
    rw [x7, k7, j7, ← e, g7, e7, d7, c7, b7, a7]
  · intro hg
    cases hc : pyInt (pyGet parsed "price_max") with
    | error er =>
      have hs := stepPriceMax_err s6 hg hc
      rw [hs] at h7
      exact Except.noConfusion h7
    | ok n =>
      refine ⟨n, rfl, ?_⟩
      have hs := stepPriceMax_set s6 hg hc
      rw [hs] at h7
      have e : { s6 with price_max := some n } = s7 := Except.ok.inj h7
      rw [x7, k7, j7, ← e]
  · intro hn hg
    have hs := stepPriceMax_clear s6 hn hg
    rw [hs] at h7
    have e : { s6 with price_max := none } = s7 := Except.ok.inj h7
    rw [x7, k7, j7, ← e]
  · intro hg
    have hs := stepKeywords_skip s7 hg
    rw [hs] at h8
    have e : s7 = s8 := Except.ok.inj h8
    rw [x8, k8, ← e, i8, g8, e8, d8, c8, b8, a8]
  · intro v
    rw [x8, k8, stepKeywords_mem h8 v, i8, g8, e8, d8, c8, b8, a8]
  · intro hg
    have hs := stepFeatures_skip s8 hg
    rw [hs] at h9
    have e : s8 = s9 := Except.ok.inj h9
    rw [x9, ← e, j9, i9, g9, e9, d9, c9, b9, a9]
  · rw [stepExclude_eq]
    split
    · rename_i htr
      simp [htr]
    · rename_i htr
      simp only [Bool.not_eq_true] at htr
      rw [htr, k10, j10, i10, g10, e10, d10, c10, b10, a10, Bool.or_false]

/-!  ## Claim theorems  -/

/-- C2: if the language-model call fails or times out, or its output cannot
be parsed as JSON (`LLMOutcome.fail`), or the response text is empty, or the
parsed value is not a JSON object, then `parse_query_with_llm` returns the
prior context exactly; the embedding is a total function, so no exception
reaches the request layer. -/
theorem C2_adapter_fail_open (ctx : FilterState) (q : String) :
    parse_query_with_llm .fail ctx q = ctx ∧
    parse_query_with_llm .empty ctx q = ctx ∧
    ∀ v : JVal, v.isObjB = false →
      parse_query_with_llm (.parsedJson v) ctx q = ctx := by
  refine ⟨rfl, rfl, fun v hv => ?_⟩
  cases v <;> simp_all [JVal.isObjB, parse_query_with_llm, validateJ]

/-- Witness for C2 at the non-object value `json.loads` result `[]`. -/
theorem C2_adapter_fail_open_witness :
    (JVal.list []).isObjB = false ∧
    parse_query_with_llm (.parsedJson (.list [])) create_empty_memory "ce"
      = create_empty_memory :=
  ⟨rfl, (C2_adapter_fail_open create_empty_memory "ce").2.2 (.list []) rfl⟩

/-- C1 is false as stated: with the empty delta (which provides no field at
all) and raw query text "doar particulari", the merged state's
`exclude_agencies` differs from the prior state's. -/
theorem C1_counterexample :
    validate_parsed_result [] create_empty_memory "doar particulari"
      = .ok { create_empty_memory with exclude_agencies := true } ∧
    ({ create_empty_memory with exclude_agencies := true }).exclude_agencies
      ≠ create_empty_memory.exclude_agencies := by
  exact ⟨rfl, by decide⟩

/-- C1 (amended): in a successful merge, every field for which the delta
does not provide a value is unchanged — except `exclude_agencies`, which is
additionally switched on when the raw query text contains a private-sellers
phrase (and is unchanged when neither the delta nor the text triggers it). -/
theorem C1_omitted_fields_unchanged {parsed : List (String × JVal)}
    {ctx : FilterState} {q : String} {m : FilterState}
    (h : validate_parsed_result parsed ctx q = .ok m) :
    ((pyGet parsed "location").truthy = false → m.location = ctx.location) ∧
    ((pyGet parsed "city").truthy = false → m.city = ctx.city) ∧
    ((pyGet parsed "transaction").truthy = false →
      m.transaction = ctx.transaction) ∧
    ((pyGet parsed "property_type").truthy = false →
      m.property_type = ctx.property_type) ∧
    ((pyGet parsed "rooms").isNull = true → m.rooms = ctx.rooms) ∧
    ((pyGet parsed "price_min").isNull = true → m.price_min = ctx.price_min) ∧
    ((pyGet parsed "price_max").isNull = true → m.price_max = ctx.price_max) ∧
    ((pyGet parsed "keywords").truthy = false → m.keywords = ctx.keywords) ∧
    ((pyGet parsed "features").truthy = false → m.features = ctx.features) ∧
    (excludeTriggered parsed q = false →
      m.exclude_agencies = ctx.exclude_agencies) := by
  obtain ⟨p1, p2, p3, p4, p5, p6, p7, p8, p9, p10, p11, p12, p13, p14, p15⟩ :=
    validate_ok_spec h
  refine ⟨p1, p2, p3, p4, ?_, p6, p9, p12, p14, ?_⟩
  · intro hn
    have hv : pyGet parsed "rooms" = .null := by
      cases hg : pyGet parsed "rooms" <;> simp_all [JVal.isNull]
    rw [p5, hv]
    rfl
  · intro ht
    rw [p15, ht, Bool.or_false]

/-- Witness for C1 (amended): a delta supplying only `rooms` leaves
`location` (and the rest) unchanged. -/
theorem C1_omitted_fields_unchanged_witness :
    (pyGet [("rooms", JVal.int 3)] "location").truthy = false ∧
    ({ create_empty_memory with rooms := some 3 } : FilterState).location
      = create_empty_memory.location :=
  ⟨rfl,
   (@C1_omitted_fields_unchanged [("rooms", JVal.int 3)] create_empty_memory
      "x" { create_empty_memory with rooms := some 3 } rfl).1 rfl⟩

/-- C6: rooms validation accepts exactly the integer instances 1..5 (Python's
`isinstance(·, int)`, under which bools count as 0/1) and overwrites with the
accepted value; any other supplied value leaves the prior `rooms` unchanged. -/
theorem C6_rooms_validation {parsed : List (String × JVal)}
    {ctx : FilterState} {q : String} {m : FilterState}
    (h : validate_parsed_result parsed ctx q = .ok m) :
    m.rooms = (match pyIntInstance (pyGet parsed "rooms") with
      | some n => if 1 ≤ n ∧ n ≤ 5 then some n else ctx.rooms
      | none => ctx.rooms) := by
  obtain ⟨-, -, -, -, p5, -⟩ := validate_ok_spec h
  exact p5

/-- Witness for C6: a supplied rooms value of 3 is accepted. -/
theorem C6_rooms_validation_witness :
    ({ create_empty_memory with rooms := some 3 } : FilterState).rooms =
      (match pyIntInstance (pyGet [("rooms", JVal.int 3)] "rooms") with
       | some n => if 1 ≤ n ∧ n ≤ 5 then some n else create_empty_memory.rooms
       | none => create_empty_memory.rooms) :=
  @C6_rooms_validation [("rooms", JVal.int 3)] create_empty_memory ""
    { create_empty_memory with rooms := some 3 } rfl

/-- C10: a present falsy price value (such as 0) clears the corresponding
bound to null instead of keeping the prior value or storing 0. -/
theorem C10_falsy_price_clears {parsed : List (String × JVal)}
    {ctx : FilterState} {q : String} {m : FilterState}
    (h : validate_parsed_result parsed ctx q = .ok m) :
    ((pyGet parsed "price_min").isNull = false →
      (pyGet parsed "price_min").truthy = false → m.price_min = none) ∧
    ((pyGet parsed "price_max").isNull = false →
      (pyGet parsed "price_max").truthy = false → m.price_max = none) := by
  obtain ⟨-, -, -, -, -, -, -, p8, -, -, p11, -⟩ := validate_ok_spec h
  exact ⟨p8, p11⟩

/-- Witness for C10: supplying `price_min = 0` over a prior bound of 100
yields a null bound. -/
theorem C10_falsy_price_clears_witness :
    (pyGet [("price_min", JVal.int 0)] "price_min").isNull = false ∧
    (pyGet [("price_min", JVal.int 0)] "price_min").truthy = false ∧
    create_empty_memory.price_min = none :=
  ⟨rfl, by decide,
   (@C10_falsy_price_clears [("price_min", JVal.int 0)]
      { create_empty_memory with price_min := some 100 } ""
      create_empty_memory rfl).1 rfl (by decide)⟩

/-- C4 is false as stated: a delta supplying the invalid (negative) bound
-100 overwrites the prior bound 500 instead of leaving it untouched, and the
merged state's `price_min` is a negative integer. -/
theorem C4_counterexample :
    validate_parsed_result [("price_min", JVal.int (-100))]
        { create_empty_memory with price_min := some 500 } ""
      = .ok { create_empty_memory with price_min := some (-100) } ∧
    ∃ n, ({ create_empty_memory with price_min := some (-100) }
            : FilterState).price_min = some n ∧ n < 0 :=
  ⟨rfl, ⟨-100, rfl, by decide⟩⟩

/-- C4 (amended): merged price bounds are null or the raw `int(value)` of
whatever truthy value the delta supplied — including negative integers, with
no range check; the prior bound survives only when the field is absent/null
(a falsy value clears it, and a non-convertible value aborts the merge). -/
theorem C4_price_bounds_amended {parsed : List (String × JVal)}
    {ctx : FilterState} {q : String} {m : FilterState}
    (h : validate_parsed_result parsed ctx q = .ok m) :
    ((pyGet parsed "price_min").truthy = true →
      ∀ n, pyInt (pyGet parsed "price_min") = .ok n → m.price_min = some n) ∧
    ((pyGet parsed "price_max").truthy = true →
      ∀ n, pyInt (pyGet parsed "price_max") = .ok n → m.price_max = some n) ∧
    ((pyGet parsed "price_min").isNull = true → m.price_min = ctx.price_min) ∧
    ((pyGet parsed "price_max").isNull = true → m.price_max = ctx.price_max) := by
  obtain ⟨-, -, -, -, -, p6, p7, -, p9, p10, -, -, -, -, -⟩ := validate_ok_spec h
  refine ⟨?_, ?_, p6, p9⟩
  · intro ht n hn
    obtain ⟨n', hn', hm⟩ := p7 ht
    rw [hn] at hn'
    cases hn'
    exact hm
  · intro ht n hn
    obtain ⟨n', hn', hm⟩ := p10 ht
    rw [hn] at hn'
    cases hn'
    exact hm

/-- Witness for C4 (amended): the negative bound -100 is written through. -/
theorem C4_price_bounds_amended_witness :
    (pyGet [("price_min", JVal.int (-100))] "price_min").truthy = true ∧
    pyInt (pyGet [("price_min", JVal.int (-100))] "price_min")
      = .ok (-100) ∧
    ({ create_empty_memory with price_min := some (-100) }
       : FilterState).price_min = some (-100) :=
  ⟨by decide, rfl,
   (@C4_price_bounds_amended [("price_min", JVal.int (-100))]
      { create_empty_memory with price_min := some 500 } ""
      { create_empty_memory with price_min := some (-100) }
      (by rfl)).1 (by decide) (-100) rfl⟩

/-- C9: a truthy price value on which `int()` raises makes
`validate_parsed_result` raise, the bare `except` of `parse_query_with_llm`
catches it, and the whole delta — every other field it supplied — is
discarded: extraction returns the prior context exactly. -/
theorem C9_bad_price_discards_delta {parsed : List (String × JVal)}
    {ctx : FilterState} {q : String}
    (h : ((pyGet parsed "price_min").truthy = true ∧
           ∃ e, pyInt (pyGet parsed "price_min") = .error e) ∨
         ((pyGet parsed "price_max").truthy = true ∧
           ∃ e, pyInt (pyGet parsed "price_max") = .error e)) :
    parse_query_with_llm (.parsedJson (.obj parsed)) ctx q = ctx := by
  unfold parse_query_with_llm validateJ
  cases hv : validate_parsed_result parsed ctx q with
  | error e =>
    show (match validate_parsed_result parsed ctx q with
          | Except.ok r => r
          | Except.error _ => ctx) = ctx
    rw [hv]
  | ok m =>
    exfalso
    obtain ⟨-, -, -, -, -, -, p7, -, -, p10, -, -, -, -, -⟩ := validate_ok_spec hv
    rcases h with ⟨ht, e, he⟩ | ⟨ht, e, he⟩
    · obtain ⟨n, hn, -⟩ := p7 ht
      rw [hn] at he
      exact Except.noConfusion he
    · obtain ⟨n, hn, -⟩ := p10 ht
      rw [hn] at he
      exact Except.noConfusion he

/-- Witness for C9: the delta also supplied a valid location and rooms, and
both are lost for the turn. -/
theorem C9_bad_price_discards_delta_witness :
    (pyGet [("location", JVal.str "Pallady"), ("rooms", JVal.int 2),
            ("price_min", JVal.str "ieftin")] "price_min").truthy = true ∧
    pyInt (pyGet [("location", JVal.str "Pallady"), ("rooms", JVal.int 2),
            ("price_min", JVal.str "ieftin")] "price_min")
      = .error .valueError ∧
    parse_query_with_llm
      (.parsedJson (.obj [("location", JVal.str "Pallady"),
                          ("rooms", JVal.int 2),
                          ("price_min", JVal.str "ieftin")]))
      create_empty_memory "apartament Pallady" = create_empty_memory :=
  ⟨by decide, rfl,
   @C9_bad_price_discards_delta
     [("location", JVal.str "Pallady"), ("rooms", JVal.int 2),
      ("price_min", JVal.str "ieftin")]
     create_empty_memory "apartament Pallady"
     (Or.inl ⟨by decide, .valueError, rfl⟩)⟩

/-- C8: `exclude_agencies` becomes true when the delta says literally `True`
or the case-folded raw query text contains a private-sellers phrase; a merge
never resets it from true to false (also across any number of successful
merges); and a non-null UI override is authoritative for the persisted
value regardless of the other rules. -/
theorem C8_exclude_sticky_override :
    (∀ (parsed : List (String × JVal)) (ctx : FilterState) (q : String)
       (m : FilterState), validate_parsed_result parsed ctx q = .ok m →
       (excludeTriggered parsed q = true → m.exclude_agencies = true) ∧
       (ctx.exclude_agencies = true → m.exclude_agencies = true) ∧
       (excludeTriggered parsed q = false →
         m.exclude_agencies = ctx.exclude_agencies)) ∧
    (∀ (init : FilterState) (turns : List (List (String × JVal) × String))
       (final : FilterState), foldValidate init turns = .ok final →
       init.exclude_agencies = true → final.exclude_agencies = true) ∧
    (∀ (outcome : LLMOutcome) (prior : FilterState) (q : String) (b : Bool),
       (mergedFilters outcome prior q (some b)).exclude_agencies = b) := by
  have single : ∀ (parsed : List (String × JVal)) (ctx : FilterState)
      (q : String) (m : FilterState),
      validate_parsed_result parsed ctx q = .ok m →
      m.exclude_agencies = (ctx.exclude_agencies || excludeTriggered parsed q) := by
    intro parsed ctx q m h
    obtain ⟨-, -, -, -, -, -, -, -, -, -, -, -, -, -, p15⟩ := validate_ok_spec h
    exact p15
  refine ⟨?_, ?_, ?_⟩
  · intro parsed ctx q m h
    have hx := single parsed ctx q m h
    refine ⟨?_, ?_, ?_⟩
    · intro ht; rw [hx, ht, Bool.or_true]
    · intro hc; rw [hx, hc, Bool.true_or]
    · intro ht; rw [hx, ht, Bool.or_false]
  · intro init turns
    induction turns generalizing init with
    | nil =>
      intro final h hi
      cases Except.ok.inj h
      exact hi
    | cons t rest ih =>
      obtain ⟨p, qq⟩ := t
      intro final h hi
      obtain ⟨st, hst, hrest⟩ := exceptBind_ok h
      have hx := single p init qq st hst
      exact ih st final hrest (by rw [hx, hi, Bool.true_or])
  · intro outcome prior q b
    rfl

/-- Witness for C8: the phrase "doar particulari" switches the flag on; a
`False` UI override forces the persisted flag off regardless. -/
theorem C8_exclude_sticky_override_witness :
    excludeTriggered [] "doar particulari" = true ∧
    ({ create_empty_memory with exclude_agencies := true }
       : FilterState).exclude_agencies = true ∧
    (mergedFilters .fail { create_empty_memory with exclude_agencies := true }
       "" (some false)).exclude_agencies = false :=
  ⟨by decide,
   (C8_exclude_sticky_override.1 [] create_empty_memory "doar particulari"
      { create_empty_memory with exclude_agencies := true } rfl).1 (by decide),
   C8_exclude_sticky_override.2.2 .fail
     { create_empty_memory with exclude_agencies := true } "" false⟩

/-- C5: for a fixed session, the keyword set after N successful merges is
exactly the union of the initial keyword set with the keyword sets supplied
by the N deltas (stated at the Python-set membership level), and in
particular no merge ever removes a keyword. -/
theorem C5_keywords_union :
    ∀ (init : FilterState) (turns : List (List (String × JVal) × String))
      (final : FilterState), foldValidate init turns = .ok final →
      (∀ v, kwMem v final.keywords =
        (kwMem v init.keywords || turns.any (fun t => kwSupplied v t.1))) ∧
      (∀ v, kwMem v init.keywords = true → kwMem v final.keywords = true) := by
  have main : ∀ (turns : List (List (String × JVal) × String))
      (init final : FilterState), foldValidate init turns = .ok final →
      ∀ v, kwMem v final.keywords =
        (kwMem v init.keywords || turns.any (fun t => kwSupplied v t.1)) := by
    intro turns
    induction turns with
    | nil =>
      intro init final h v
      cases Except.ok.inj h
      simp
    | cons t rest ih =>
      obtain ⟨p, qq⟩ := t
      intro init final h v
      obtain ⟨st, hst, hrest⟩ := exceptBind_ok h
      obtain ⟨-, -, -, -, -, -, -, -, -, -, -, -, p13, -, -⟩ :=
        validate_ok_spec hst
      rw [ih st final hrest v, p13 v]
      simp [Bool.or_assoc]
  intro init turns final h
  refine ⟨main turns init final h, fun v hv => ?_⟩
  rw [main turns init final h v, hv, Bool.true_or]

/-- Witness for C5: two turns supplying "modern" and "balcon" end with both
keywords present. -/
theorem C5_keywords_union_witness :
    kwMem (JVal.str "modern")
      ([JVal.str "modern", JVal.str "balcon"] : List JVal) =
      (kwMem (JVal.str "modern") ([] : List JVal) ||
        ([([("keywords", JVal.list [JVal.str "modern"])], ""),
          ([("keywords", JVal.list [JVal.str "balcon"])], "")]
          : List (List (String × JVal) × String)).any
          (fun t => kwSupplied (JVal.str "modern") t.1)) :=
  (C5_keywords_union create_empty_memory
    [([("keywords", JVal.list [JVal.str "modern"])], ""),
     ([("keywords", JVal.list [JVal.str "balcon"])], "")]
    { create_empty_memory with
        keywords := [JVal.str "modern", JVal.str "balcon"] }
    (by rfl)).1 (JVal.str "modern")

/-- C3 is false as stated: at raw score 199 with maximum score 200 the ratio
is exactly 99.5; the spec's `clamp(round(·))` formula gives 100, but
`format_result` computes `int(·)` (truncation toward zero) and yields 99. -/
theorem C3_counterexample :
    format_score 199 200 = 99 ∧ spec_score 199 200 = 100 ∧ (99 : ℤ) ≠ 100 := by
  refine ⟨?_, ?_, by decide⟩
  · norm_num [format_score, ratTrunc]
  · norm_num [spec_score, round_eq]

/-- C3 (amended): the score is `clamp(trunc(rawScore / maxScoreInResponse *
100), 0, 100)` with truncation toward zero (Python `int()`) instead of
rounding; in particular it lies in [0, 100] for every raw score, and is 0
for every hit when `maxScoreInResponse <= 0`. -/
theorem C3_score_amended (raw maxs : ℚ) :
    (0 ≤ format_score raw maxs ∧ format_score raw maxs ≤ 100) ∧
    (maxs ≤ 0 → format_score raw maxs = 0) ∧
    (0 < maxs →
      format_score raw maxs = min 100 (max 0 (ratTrunc (raw / maxs * 100)))) := by
  refine ⟨⟨?_, ?_⟩, ?_, ?_⟩
  · exact le_min (by norm_num) (le_max_left 0 _)
  · exact min_le_left _ _
  · intro h
    simp only [format_score, if_neg (not_lt.mpr h)]
    norm_num
  · intro h
    simp only [format_score, if_pos h]

/-- Witness for C3 (amended) at raw 199, max 200. -/
theorem C3_score_amended_witness :
    ((0 : ℚ) < 200) ∧
    format_score 199 200 = min 100 (max 0 (ratTrunc ((199 : ℚ) / 200 * 100))) :=
  ⟨by norm_num, (C3_score_amended 199 200).2.2 (by norm_num)⟩

theorem containsSeq_starts {needle hay : List Char} (h : needle <+: hay) :
    containsSeq needle hay = true := by
  cases hay with
  | nil =>
    obtain ⟨t, ht⟩ := h
    rcases List.append_eq_nil.mp ht with ⟨rfl, -⟩
    rfl
  | cons c rest =>
    unfold containsSeq
    have hp : needle.isPrefixOf (c :: rest) = true :=
      List.isPrefixOf_iff_prefix.mpr h
    rw [hp]
    rfl

theorem containsSeq_sector_chunk (mid tail : List Char) :
    containsSeq "sector".data (("sector".data ++ mid) ++ tail) = true := by
  apply containsSeq_starts
  rw [List.append_assoc]
  exact List.prefix_append _ _

/-- Any location of the shape `pre ++ digits` where `pre` carries a
"sector" token (after lowering) and no digits compiles to the two-spelling
exact OR-group over the extracted digit run. -/
theorem locationClauses_sector (pre : String) (d : Char) (ds' : List Char)
    (hdig : ∀ c ∈ d :: ds', c.isDigit = true)
    (hnodig : ∀ c ∈ pre.data, c.isDigit = false)
    (hcontain : containsSeq "sector".data
        ((pre.data ++ d :: ds').map Char.toLower) = true) :
    locationClauses (some (pre ++ (d :: ds').asString)) =
      [QClause.orGroup
        [QClause.term "location_2" ("Sector " ++ (d :: ds').asString),
         QClause.term "location_2" ("Sectorul " ++ (d :: ds').asString)] 1] := by
  have hdata : (pre ++ (d :: ds').asString).data = pre.data ++ d :: ds' := by
    rw [String.data_append]
    rfl
  have hne : (pre ++ (d :: ds').asString) ≠ "" := by
    intro hc
    have h2 := congrArg String.data hc
    rw [hdata] at h2
    simp at h2
  have hrun : firstDigitRun (pre.data ++ d :: ds') = some (d :: ds') := by
    unfold firstDigitRun
    rw [List.dropWhile_append_of_pos (by intro a ha; simp [hnodig a ha]),
        List.dropWhile_cons,
        if_neg (by simp [hdig d (List.mem_cons_self d ds')])]
    show some (List.takeWhile Char.isDigit (d :: ds')) = some (d :: ds')
    rw [List.takeWhile_eq_self_iff.mpr hdig]
  simp only [locationClauses]
  rw [if_neg hne, hdata, if_pos hcontain, hrun]

/-- `assembleQuery` only depends on the non-location fields of the state. -/
theorem assembleQuery_congr (cl : List QClause) (a b : FilterState)
    (size offset : ℕ)
    (h2 : a.city = b.city) (h3 : a.transaction = b.transaction)
    (h4 : a.property_type = b.property_type) (h5 : a.rooms = b.rooms)
    (h6 : a.price_min = b.price_min) (h7 : a.price_max = b.price_max)
    (h8 : a.keywords = b.keywords) (h9 : a.features = b.features)
    (h10 : a.exclude_agencies = b.exclude_agencies) :
    assembleQuery cl a size offset = assembleQuery cl b size offset := by
  unfold assembleQuery
  rw [h2, h3, h4, h5, h6, h7, h8, h9, h10]

/-- C7: sector extraction is spelling-invariant — for every decimal digit
run `ds` (the rendering of a sector number), the three spellings
`"Sector ds"`, `"sector ds"` and `"Sectorul ds"` compile to the identical
`must` clause, the OR-group over the two exact `location_2` term matches
with `minimum_should_match` 1 built from the first integer substring, and
the full compiled queries coincide. -/
theorem C7_sector_spelling_invariance (ds : List Char) (hne : ds ≠ [])
    (hdig : ∀ c ∈ ds, c.isDigit = true) (st : FilterState)
    (size offset : ℕ) :
    locationClauses (some ("Sector " ++ ds.asString)) =
      [QClause.orGroup
        [QClause.term "location_2" ("Sector " ++ ds.asString),
         QClause.term "location_2" ("Sectorul " ++ ds.asString)] 1] ∧
    locationClauses (some ("sector " ++ ds.asString)) =
      locationClauses (some ("Sector " ++ ds.asString)) ∧
    locationClauses (some ("Sectorul " ++ ds.asString)) =
      locationClauses (some ("Sector " ++ ds.asString)) ∧
    build_opensearch_query { st with location := some ("sector " ++ ds.asString) }
        size offset =
      build_opensearch_query { st with location := some ("Sector " ++ ds.asString) }
        size offset ∧
    build_opensearch_query { st with location := some ("Sectorul " ++ ds.asString) }
        size offset =
      build_opensearch_query { st with location := some ("Sector " ++ ds.asString) }
        size offset := by
  cases ds with
  | nil => exact absurd rfl hne
  | cons d ds' =>
    have h1 : locationClauses (some ("Sector " ++ (d :: ds').asString)) = _ :=
      locationClauses_sector "Sector " d ds' hdig (by decide) (by
        rw [List.map_append,
            show ("Sector ".data.map Char.toLower) = "sector".data ++ [' ']
              from by decide]
        exact containsSeq_sector_chunk [' '] _)
    have h2 : locationClauses (some ("sector " ++ (d :: ds').asString)) = _ :=
      locationClauses_sector "sector " d ds' hdig (by decide) (by
        rw [List.map_append,
            show ("sector ".data.map Char.toLower) = "sector".data ++ [' ']
              from by decide]
        exact containsSeq_sector_chunk [' '] _)
    have h3 : locationClauses (some ("Sectorul " ++ (d :: ds').asString)) = _ :=
      locationClauses_sector "Sectorul " d ds' hdig (by decide) (by
        rw [List.map_append,
            show ("Sectorul ".data.map Char.toLower)
                = "sector".data ++ ('u' :: 'l' :: [' '])
              from by decide]
        exact containsSeq_sector_chunk ('u' :: 'l' :: [' ']) _)
    refine ⟨h1, by rw [h1, h2], by rw [h1, h3], ?_, ?_⟩
    · show assembleQuery (locationClauses (some ("sector " ++ (d :: ds').asString))) _ size offset
        = assembleQuery (locationClauses (some ("Sector " ++ (d :: ds').asString))) _ size offset
      rw [h1, h2]
      exact assembleQuery_congr _ _ _ size offset rfl rfl rfl rfl rfl rfl rfl rfl rfl
    · show assembleQuery (locationClauses (some ("Sectorul " ++ (d :: ds').asString))) _ size offset
        = assembleQuery (locationClauses (some ("Sector " ++ (d :: ds').asString))) _ size offset
      rw [h1, h3]
      exact assembleQuery_congr _ _ _ size offset rfl rfl rfl rfl rfl rfl rfl rfl rfl

/-- Witness for C7 at sector number 3. -/
theorem C7_sector_spelling_invariance_witness :
    (['3'] : List Char) ≠ [] ∧ (∀ c ∈ (['3'] : List Char), c.isDigit = true) ∧
    locationClauses (some ("Sector " ++ (['3'] : List Char).asString)) =
      [QClause.orGroup
        [QClause.term "location_2" ("Sector " ++ (['3'] : List Char).asString),
         QClause.term "location_2" ("Sectorul " ++ (['3'] : List Char).asString)]
        1] :=
  ⟨by decide, by decide,
   (C7_sector_spelling_invariance ['3'] (by decide) (by decide)
      create_empty_memory 25 0).1⟩
